import Mathlib

/-!
Verification of the aluvia-js credential SDK core (src/src/index.ts) against its
natural-language specification.  The TypeScript code is shallowly embedded:
the username suffix codec, the credential cache, and each SDK operation become
executable Lean functions.  Remote interaction is modelled by passing the
remote outcome (parsed response body or thrown typed error) as an explicit
argument, and each operation reports the list of transport calls it issued,
the post-state of the local credential cache, and its result or raised error.
-/

namespace AluviaSdk

/-! ## Username suffix codec (Proxy.stripUsernameSuffixes and Aluvia.stripUsernameSuffixes)

The JavaScript code calls `String.replace` twice with the non-global regexes
`-session-[a-zA-Z0-9]+` and `-routing-smart`, replacing by the empty string.
Each call removes the leftmost greedy match of its pattern, at most once,
session pattern first. -/

/-- Characters matched by the regex class `[a-zA-Z0-9]`. -/
def isTokenChar (c : Char) : Bool :=
  c.isAlpha || c.isDigit

/-- The literal part of the session-suffix regex. -/
def sessionPat : List Char :=
  "-session-".data

/-- The routing-suffix literal. -/
def routingPat : List Char :=
  "-routing-smart".data

/-- Does `l` start with the pattern `p`? -/
def startsWithChars : List Char → List Char → Bool
  | [], _ => true
  | _ :: _, [] => false
  | p :: ps, c :: cs => p == c && startsWithChars ps cs

/-- If `l` begins with `-session-` followed by at least one `[a-zA-Z0-9]`
character, return the remainder after the greedy match, else `none`. -/
def matchSessionAt (l : List Char) : Option (List Char) :=
  if startsWithChars sessionPat l then
    let rest := l.drop sessionPat.length
    if (rest.takeWhile isTokenChar).isEmpty then none
    else some (rest.dropWhile isTokenChar)
  else none

/-- Remove the leftmost greedy match of `-session-[a-zA-Z0-9]+`, if any. -/
def removeSession : List Char → List Char
  | [] => []
  | c :: cs =>
    match matchSessionAt (c :: cs) with
    | some rest => rest
    | none => c :: removeSession cs

/-- Remove the leftmost occurrence of `-routing-smart`, if any. -/
def removeRouting : List Char → List Char
  | [] => []
  | c :: cs =>
    if startsWithChars routingPat (c :: cs) then (c :: cs).drop routingPat.length
    else c :: removeRouting cs

/-- Embedding of `stripUsernameSuffixes` (identical in `Proxy` and `Aluvia`):
first the session replace, then the routing replace. -/
def stripUsernameSuffixes (s : String) : String :=
  String.mk (removeRouting (removeSession s.data))

/-- Is there any match of `-session-[a-zA-Z0-9]+` anywhere in `l`? -/
def hasSessionMatch : List Char → Bool
  | [] => false
  | c :: cs => (matchSessionAt (c :: cs)).isSome || hasSessionMatch cs

/-- Is there any occurrence of `-routing-smart` anywhere in `l`? -/
def hasRoutingMatch : List Char → Bool
  | [] => false
  | c :: cs => startsWithChars routingPat (c :: cs) || hasRoutingMatch cs

/-- Does the string contain an occurrence of either feature-suffix pattern? -/
def hasSuffixOccurrence (s : String) : Bool :=
  hasSessionMatch s.data || hasRoutingMatch s.data

example : stripUsernameSuffixes "user123" = "user123" := by decide
example : stripUsernameSuffixes "user123-session-abc" = "user123" := by decide
example : stripUsernameSuffixes "user123-routing-smart" = "user123" := by decide
example : stripUsernameSuffixes "user123-session-xyz789-routing-smart" = "user123" := by decide
example : stripUsernameSuffixes "u-session-abc-session-def" = "u-session-def" := by decide

/-! ## Data model -/

/-- TypeScript truthiness of an optional boolean (`undefined` is falsy). -/
def truthyB : Option Bool → Bool
  | some b => b
  | none => false

/-- TypeScript truthiness of an optional string (`undefined` and `""` are falsy). -/
def truthyS : Option String → Bool
  | some s => !s.data.isEmpty
  | none => false

/-- JavaScript `a || b` for an optional string `a` and default `b`
(`undefined` and the empty string both fall through to the default). -/
def jsOr : Option String → String → String
  | some s, d => if s.data.isEmpty then d else s
  | none, d => d

/-- JavaScript whitespace trim, modelled on the character list. -/
def trimChars (l : List Char) : List Char :=
  ((l.dropWhile Char.isWhitespace).reverse.dropWhile Char.isWhitespace).reverse

/-- Embedding of the `trim` performed by `validateRequiredString`. -/
def jsTrim (s : String) : String :=
  String.mk (trimChars s.data)

/-- Embedding of the `ProxyCredential` interface: optional fields are `Option`. -/
structure ProxyCredential where
  username : String
  password : String
  stickyEnabled : Option Bool := none
  smartRoutingEnabled : Option Bool := none
  session_salt : Option String := none
deriving Repr, DecidableEq

/-- The typed errors of errors.ts that the SDK can raise.  `apiError` carries
the optional `statusCode` field. -/
inductive SdkError where
  | apiError (message : String) (statusCode : Option Nat)
  | networkError (message : String)
  | authenticationError (message : String)
  | rateLimitError (message : String)
  | validationError (message : String)
deriving Repr, DecidableEq

/-- The condition of the catch clause in `Aluvia.find`:
`error instanceof ApiError && error.statusCode === 404`. -/
def SdkError.is404 (e : SdkError) : Bool :=
  match e with
  | .apiError _ (some n) => n == 404
  | _ => false

/-- The request body of `Aluvia.update`: the code builds the object literal
`\x7b options: \x7b use_sticky: options.stickyEnabled \x7d \x7d`, whose only
option key is `use_sticky`. -/
structure UpdateRequestBody where
  use_sticky : Option Bool
deriving Repr, DecidableEq

/-- One transport operation issued by an SDK method, with its request payload. -/
inductive TransportCall where
  | get (path : String)
  | patch (path : String) (body : UpdateRequestBody)
  | del (path : String)
deriving Repr, DecidableEq

/-- The in-memory credential cache of an `Aluvia` instance. -/
structure AluviaState where
  credentials : List ProxyCredential
deriving Repr, DecidableEq

/-- Outcome of one remote call: a parsed response body, or a thrown typed error. -/
inductive RemoteOutcome (β : Type) where
  | ok (body : β)
  | err (e : SdkError)
deriving Repr, DecidableEq

/-- Result of running one SDK operation: the transport calls it issued, the
post-state of the cache, and its returned value or raised error. -/
structure OpResult (α : Type) where
  calls : List TransportCall
  state : AluviaState
  result : Except SdkError α

/-! ## Proxy methods -/

/-- Embedding of `Proxy.buildCredential`: strip the stored username, append the
session suffix when `stickyEnabled` and `session_salt` are truthy, then append
the routing suffix when `smartRoutingEnabled` is truthy. -/
def Proxy.buildCredential (c : ProxyCredential) : ProxyCredential :=
  let u0 := stripUsernameSuffixes c.username
  let u1 := if truthyB c.stickyEnabled && truthyS c.session_salt then
              u0 ++ "-session-" ++ c.session_salt.getD ""
            else u0
  let u2 := if truthyB c.smartRoutingEnabled then u1 ++ "-routing-smart" else u1
  { c with username := u2 }

/-- Local mutation step of `Proxy.enableSticky` (the generated salt is passed
in explicitly; the remote sync that follows is `Proxy.syncOptions`). -/
def Proxy.enableSticky (c : ProxyCredential) (salt : String) : ProxyCredential :=
  { c with stickyEnabled := some true, session_salt := some salt }

/-- Local mutation step of `Proxy.disableSticky`. -/
def Proxy.disableSticky (c : ProxyCredential) : ProxyCredential :=
  { c with stickyEnabled := some false, session_salt := none }

/-- Local mutation step of `Proxy.enableSmartRouting`. -/
def Proxy.enableSmartRouting (c : ProxyCredential) : ProxyCredential :=
  { c with smartRoutingEnabled := some true }

/-- Local mutation step of `Proxy.disableSmartRouting`. -/
def Proxy.disableSmartRouting (c : ProxyCredential) : ProxyCredential :=
  { c with smartRoutingEnabled := some false }

/-- The options object `Proxy.update` passes to `Aluvia.update`:
`\x7b stickyEnabled: this.credential.stickyEnabled \x7d`. -/
structure UpdateOptions where
  stickyEnabled : Option Bool
deriving Repr, DecidableEq

/-- The argument `Proxy.update` sends to `Aluvia.update` after a toggle. -/
def Proxy.syncOptions (c : ProxyCredential) : UpdateOptions :=
  { stickyEnabled := c.stickyEnabled }

/-! ## Aluvia.find -/

/-- The `data` field of a successful find response body. -/
structure FindData where
  username : String
  password : String
deriving Repr, DecidableEq

/-- Parsed response body of `GET /credentials/<base>`. -/
structure FindResponse where
  success : Bool
  data : FindData
deriving Repr, DecidableEq

/-- Embedding of `Aluvia.find`: strip the input, always issue the remote GET,
wrap a successful body into a fresh credential, translate a thrown 404
`ApiError` into an absent result, re-raise every other thrown error. -/
def Aluvia.find (st : AluviaState) (username : String)
    (remote : RemoteOutcome FindResponse) : OpResult (Option ProxyCredential) :=
  let baseUsername := stripUsernameSuffixes username
  let calls := [TransportCall.get ("/credentials/" ++ baseUsername)]
  match remote with
  | .ok response =>
    if response.success then
      { calls := calls, state := st,
        result := .ok (some {
          username := response.data.username,
          password := response.data.password,
          stickyEnabled := some false,
          smartRoutingEnabled := some false,
          session_salt := none }) }
    else { calls := calls, state := st, result := .ok none }
  | .err e =>
    if e.is404 then { calls := calls, state := st, result := .ok none }
    else { calls := calls, state := st, result := .error e }

/-! ## Aluvia.first -/

/-- One element of the credential list returned by `GET /credentials`.
`options_use_sticky` is `none` when the `use_sticky` key is absent from
`options`, and `some v` when the key is present with value `v`. -/
structure RawCredential where
  username : String
  password : String
  created_at : Nat
  options_use_sticky : Option (Option Bool)
deriving Repr, DecidableEq

/-- Parsed response body of `GET /credentials`. -/
structure FirstResponse where
  success : Bool
  data : List RawCredential
deriving Repr, DecidableEq

/-- The `reduce` in `Aluvia.first`: strictly greater `created_at` wins,
ties keep the earlier element. -/
def latestOf (x : RawCredential) (xs : List RawCredential) : RawCredential :=
  xs.foldl
    (fun latest current =>
      if current.created_at > latest.created_at then current else latest) x

/-- The sticky flag `Aluvia.first` derives from the raw options:
key present and truthy gives `true`, otherwise `false`. -/
def stickyFromOptions : Option (Option Bool) → Bool
  | some (some b) => b
  | some none => false
  | none => false

/-- Embedding of `Aluvia.first`: on a successful, non-empty body select the
latest credential, replace the cache with exactly that record, and return it;
otherwise throw `ApiError "Failed to load credentials"`; thrown transport
errors are re-raised unchanged. -/
def Aluvia.first (st : AluviaState) (remote : RemoteOutcome FirstResponse) :
    OpResult (Option ProxyCredential) :=
  let calls := [TransportCall.get "/credentials"]
  match remote with
  | .ok response =>
    match response.data with
    | latest0 :: rest =>
      if response.success then
        let latestProxy := latestOf latest0 rest
        let credential : ProxyCredential := {
          username := latestProxy.username,
          password := latestProxy.password,
          stickyEnabled := some (stickyFromOptions latestProxy.options_use_sticky),
          smartRoutingEnabled := none,
          session_salt := none }
        { calls := calls, state := { credentials := [credential] },
          result := .ok (some credential) }
      else
        { calls := calls, state := st,
          result := .error (.apiError "Failed to load credentials" none) }
    | [] =>
      { calls := calls, state := st,
        result := .error (.apiError "Failed to load credentials" none) }
  | .err e => { calls := calls, state := st, result := .error e }

/-! ## Aluvia.update -/

/-- The echoed `options` object inside a successful update response. -/
structure UpdateEchoOptions where
  use_sticky : Option Bool
deriving Repr, DecidableEq

/-- The optional `data` field of an update response. -/
structure UpdateResponseData where
  username : String
  created_at : Nat
  updated_at : Nat
  options : UpdateEchoOptions
deriving Repr, DecidableEq

/-- Parsed response body of `PATCH /credentials/<base>`. -/
structure UpdateResponse where
  success : Bool
  data : Option UpdateResponseData
  message : Option String
deriving Repr, DecidableEq

/-- The cache reconciliation of `Aluvia.update`: the first cached credential
whose stripped username equals the base gets its `stickyEnabled` set to the
requested value if one was given (nullish coalescing), else kept. -/
def updateFirstMatch (creds : List ProxyCredential) (baseUsername : String)
    (requested : Option Bool) : List ProxyCredential :=
  match creds with
  | [] => []
  | c :: cs =>
    if stripUsernameSuffixes c.username == baseUsername then
      { c with stickyEnabled :=
          match requested with
          | some b => some b
          | none => c.stickyEnabled } :: cs
    else c :: updateFirstMatch cs baseUsername requested

/-- Embedding of `Aluvia.update`: strip the input, send a PATCH whose body
holds only `use_sticky`, and on success reconcile the cache from the
requested options (the echoed response data is not consulted); on a
non-success body throw `ApiError` with the remote message or a fallback. -/
def Aluvia.update (st : AluviaState) (username : String) (options : UpdateOptions)
    (remote : RemoteOutcome UpdateResponse) : OpResult Bool :=
  let baseUsername := stripUsernameSuffixes username
  let calls := [TransportCall.patch ("/credentials/" ++ baseUsername)
                  { use_sticky := options.stickyEnabled }]
  match remote with
  | .ok response =>
    if response.success then
      { calls := calls,
        state := { credentials :=
          updateFirstMatch st.credentials baseUsername options.stickyEnabled },
        result := .ok true }
    else
      { calls := calls, state := st,
        result := .error (.apiError (jsOr response.message "Failed to update proxy") none) }
  | .err e => { calls := calls, state := st, result := .error e }

/-! ## Aluvia.delete -/

/-- Parsed response body of `DELETE /credentials/<base>`. -/
structure DeleteResponse where
  success : Bool
  message : Option String
deriving Repr, DecidableEq

/-- Embedding of `Aluvia.delete`: validate the username (trim, non-empty,
at most 100 characters), strip it, issue the remote delete, and only on a
successful response filter every matching credential out of the cache;
otherwise raise and leave the cache untouched. -/
def Aluvia.delete (st : AluviaState) (username : String)
    (remote : RemoteOutcome DeleteResponse) : OpResult Bool :=
  let trimmed := jsTrim username
  if trimmed.data.isEmpty then
    { calls := [], state := st,
      result := .error (.validationError "username cannot be empty") }
  else if trimmed.length > 100 then
    { calls := [], state := st,
      result := .error (.validationError "Username is too long") }
  else
    let baseUsername := stripUsernameSuffixes trimmed
    let calls := [TransportCall.del ("/credentials/" ++ baseUsername)]
    match remote with
    | .ok response =>
      if response.success then
        let remaining :=
          st.credentials.filter
            (fun cred => stripUsernameSuffixes cred.username != baseUsername)
        { calls := calls, state := { credentials := remaining },
          result := .ok true }
      else
        { calls := calls, state := st,
          result := .error (.apiError (jsOr response.message "Failed to delete proxy") none) }
    | .err e => { calls := calls, state := st, result := .error e }

/-! ## Helper lemmas -/

theorem string_mk_data (s : String) : String.mk s.data = s := rfl

theorem string_mk_append (a b : List Char) :
    String.mk a ++ String.mk b = String.mk (a ++ b) := rfl

theorem string_append_empty (s : String) : s ++ "" = s := by
  obtain ⟨d⟩ := s
  show String.mk d ++ String.mk [] = String.mk d
  rw [string_mk_append, List.append_nil]

theorem string_append_assoc (a b c : String) : a ++ b ++ c = a ++ (b ++ c) := by
  obtain ⟨x⟩ := a
  obtain ⟨y⟩ := b
  obtain ⟨z⟩ := c
  show String.mk x ++ String.mk y ++ String.mk z
      = String.mk x ++ (String.mk y ++ String.mk z)
  rw [string_mk_append, string_mk_append, string_mk_append, string_mk_append,
    List.append_assoc]

theorem removeSession_eq_self {l : List Char} (h : hasSessionMatch l = false) :
    removeSession l = l := by
  induction l with
  | nil => rfl
  | cons c cs ih =>
    simp only [hasSessionMatch, Bool.or_eq_false_iff] at h
    cases hm : matchSessionAt (c :: cs) with
    | some rest =>
      rw [hm] at h
      simp at h
    | none =>
      simp only [removeSession, hm]
      rw [ih h.2]

theorem removeRouting_eq_self {l : List Char} (h : hasRoutingMatch l = false) :
    removeRouting l = l := by
  induction l with
  | nil => rfl
  | cons c cs ih =>
    simp only [hasRoutingMatch, Bool.or_eq_false_iff] at h
    simp only [removeRouting, h.1, Bool.false_eq_true, if_false]
    rw [ih h.2]

theorem strip_of_no_occurrence {s : String} (h : hasSuffixOccurrence s = false) :
    stripUsernameSuffixes s = s := by
  simp only [hasSuffixOccurrence, Bool.or_eq_false_iff] at h
  unfold stripUsernameSuffixes
  rw [removeSession_eq_self h.1, removeRouting_eq_self h.2, string_mk_data]

/-! ## Claim theorems -/

/-- Claim C5, counterexample: `stripUsernameSuffixes` is not idempotent on every
string.  A username carrying two session suffixes loses only the first one per
call, so a second call strips further. -/
theorem strip_idempotent_counterexample :
    stripUsernameSuffixes (stripUsernameSuffixes "u-session-abc-session-def")
      ≠ stripUsernameSuffixes "u-session-abc-session-def" := by decide

/-- Claim C5, amended: `stripUsernameSuffixes` is idempotent on every string
whose stripped form contains no residual occurrence of either suffix pattern
(in particular on any suffix-free base carrying at most one suffix of each
kind); it is not idempotent on arbitrary strings. -/
theorem strip_idempotent_amended (s : String)
    (h : hasSuffixOccurrence (stripUsernameSuffixes s) = false) :
    stripUsernameSuffixes (stripUsernameSuffixes s) = stripUsernameSuffixes s :=
  strip_of_no_occurrence h

/-- Witness for the amended C5 at the specification example input. -/
theorem strip_idempotent_amended_witness :
    hasSuffixOccurrence
        (stripUsernameSuffixes "alice123-session-ab12CD34-routing-smart") = false
    ∧ stripUsernameSuffixes
        (stripUsernameSuffixes "alice123-session-ab12CD34-routing-smart")
      = stripUsernameSuffixes "alice123-session-ab12CD34-routing-smart" :=
  ⟨by decide, strip_idempotent_amended _ (by decide)⟩

/-- Claim C6, confirmed: the composed username is the stripped stored username,
then the session suffix exactly when the sticky flag and the salt are truthy,
then the routing suffix exactly when smart routing is truthy; enabling both
features in either order gives the session suffix before the routing suffix,
and a sticky flag without a salt appends no session suffix. -/
theorem buildCredential_compose (c : ProxyCredential) (salt : String)
    (hsalt : salt.data.isEmpty = false) :
    ((Proxy.buildCredential c).username
        = stripUsernameSuffixes c.username
            ++ (if truthyB c.stickyEnabled && truthyS c.session_salt then
                  "-session-" ++ c.session_salt.getD "" else "")
            ++ (if truthyB c.smartRoutingEnabled then "-routing-smart" else ""))
    ∧ (Proxy.buildCredential (Proxy.enableSmartRouting (Proxy.enableSticky c salt))).username
        = stripUsernameSuffixes c.username ++ "-session-" ++ salt ++ "-routing-smart"
    ∧ (Proxy.buildCredential (Proxy.enableSticky (Proxy.enableSmartRouting c) salt)).username
        = stripUsernameSuffixes c.username ++ "-session-" ++ salt ++ "-routing-smart"
    ∧ (Proxy.buildCredential
          { c with stickyEnabled := some true, session_salt := none }).username
        = stripUsernameSuffixes c.username
            ++ (if truthyB c.smartRoutingEnabled then "-routing-smart" else "") := by
  refine ⟨?_, ?_, ?_, ?_⟩
  · unfold Proxy.buildCredential
    cases hs : (truthyB c.stickyEnabled && truthyS c.session_salt) <;>
      cases hr : truthyB c.smartRoutingEnabled <;>
        simp [hs, hr, string_append_empty, string_append_assoc]
  · simp [Proxy.buildCredential, Proxy.enableSticky, Proxy.enableSmartRouting,
      truthyB, truthyS, hsalt]
  · simp [Proxy.buildCredential, Proxy.enableSticky, Proxy.enableSmartRouting,
      truthyB, truthyS, hsalt]
  · unfold Proxy.buildCredential
    cases hr : truthyB c.smartRoutingEnabled <;>
      simp [hr, truthyB, truthyS, string_append_empty]

/-- Witness for C6 at a concrete credential and the token of the
specification example. -/
theorem buildCredential_compose_witness :
    ("AAAAAAAA" : String).data.isEmpty = false
    ∧ (Proxy.buildCredential (Proxy.enableSmartRouting (Proxy.enableSticky
          ⟨"u1", "p1", none, none, none⟩ "AAAAAAAA"))).username
        = stripUsernameSuffixes "u1" ++ "-session-" ++ "AAAAAAAA" ++ "-routing-smart" :=
  ⟨by decide,
   (buildCredential_compose ⟨"u1", "p1", none, none, none⟩ "AAAAAAAA" (by decide)).2.1⟩

/-- Claim C1, counterexample: a successful update whose remote response echoes
`use_sticky = false` while the caller requested `stickyEnabled = true` leaves
the cached record with `stickyEnabled = some true` (the requested value), not
`some false` (the echoed value) as the claim demands. -/
theorem update_remote_echo_counterexample :
    (Aluvia.update
        { credentials := [⟨"user1", "p1", some false, some false, none⟩] }
        "user1" { stickyEnabled := some true }
        (.ok { success := true,
               data := some { username := "user1", created_at := 0, updated_at := 0,
                              options := { use_sticky := some false } },
               message := none })).state.credentials
      = [⟨"user1", "p1", some true, some false, none⟩]
    ∧ ¬ ((Aluvia.update
        { credentials := [⟨"user1", "p1", some false, some false, none⟩] }
        "user1" { stickyEnabled := some true }
        (.ok { success := true,
               data := some { username := "user1", created_at := 0, updated_at := 0,
                              options := { use_sticky := some false } },
               message := none })).state.credentials
      = [⟨"user1", "p1", some false, some false, none⟩]) :=
  ⟨by decide, by decide⟩

/-- The reconciliation step rewrites exactly the first matching record, at any
depth in the cache: entries before it are untouched because they do not match,
and entries after it are untouched because the traversal stops. -/
theorem updateFirstMatch_append (pre : List ProxyCredential) (c : ProxyCredential)
    (rest : List ProxyCredential) (base : String) (req : Option Bool)
    (hpre : ∀ p ∈ pre, stripUsernameSuffixes p.username ≠ base)
    (hmatch : stripUsernameSuffixes c.username = base) :
    updateFirstMatch (pre ++ c :: rest) base req
      = pre ++ { c with stickyEnabled :=
          match req with | some b => some b | none => c.stickyEnabled } :: rest := by
  induction pre with
  | nil => simp [updateFirstMatch, hmatch]
  | cons p ps ih =>
    have hp : stripUsernameSuffixes p.username ≠ base := hpre p (by simp)
    simp only [List.cons_append, updateFirstMatch, beq_iff_eq, hp, if_false,
      List.append_eq]
    rw [ih (fun q hq => hpre q (by simp [hq]))]

/-- Claim C1, amended: on a successful update the first cached record whose
canonical username matches — wherever it sits in the cache, behind any
non-matching entries — gets its sticky flag overwritten with the value the
caller requested when one was given, and kept unchanged when the caller gave
none, while all other entries are untouched; the options echoed in the remote
response are ignored entirely (the response body beyond its success flag does
not influence the result). -/
theorem update_cache_uses_requested_flags (pre : List ProxyCredential)
    (c : ProxyCredential) (rest : List ProxyCredential) (u : String) (b : Bool)
    (resp : UpdateResponse)
    (hpre : ∀ p ∈ pre, stripUsernameSuffixes p.username ≠ stripUsernameSuffixes u)
    (hmatch : stripUsernameSuffixes c.username = stripUsernameSuffixes u)
    (hsucc : resp.success = true) :
    (Aluvia.update { credentials := pre ++ c :: rest } u { stickyEnabled := some b }
        (.ok resp)).state.credentials
      = pre ++ { c with stickyEnabled := some b } :: rest
    ∧ (Aluvia.update { credentials := pre ++ c :: rest } u { stickyEnabled := none }
        (.ok resp)).state.credentials = pre ++ c :: rest
    ∧ (Aluvia.update { credentials := pre ++ c :: rest } u { stickyEnabled := some b }
        (.ok resp)).result = .ok true := by
  refine ⟨?_, ?_, ?_⟩
  · simp [Aluvia.update, hsucc, updateFirstMatch_append pre c rest _ _ hpre hmatch]
  · simp [Aluvia.update, hsucc, updateFirstMatch_append pre c rest _ _ hpre hmatch]
  · simp [Aluvia.update, hsucc]

/-- Witness for the amended C1: the matching record sits behind a non-matching
entry, and the requested `some true` lands in the cache even though the
response echoes `use_sticky = some false`, while the non-matching entry is
untouched. -/
theorem update_cache_uses_requested_flags_witness :
    (∀ p ∈ ([⟨"other", "po", none, none, none⟩] : List ProxyCredential),
        stripUsernameSuffixes p.username ≠ stripUsernameSuffixes "user1-session-abc")
    ∧ stripUsernameSuffixes "user1" = stripUsernameSuffixes "user1-session-abc"
    ∧ ((Aluvia.update
          { credentials := [⟨"other", "po", none, none, none⟩,
                            ⟨"user1", "p1", some false, some false, none⟩] }
          "user1-session-abc" { stickyEnabled := some true }
          (.ok { success := true,
                 data := some { username := "user1", created_at := 0, updated_at := 0,
                                options := { use_sticky := some false } },
                 message := none })).state.credentials
        = [⟨"other", "po", none, none, none⟩,
           ⟨"user1", "p1", some true, some false, none⟩]
      ∧ (Aluvia.update
          { credentials := [⟨"other", "po", none, none, none⟩,
                            ⟨"user1", "p1", some false, some false, none⟩] }
          "user1-session-abc" { stickyEnabled := none }
          (.ok { success := true,
                 data := some { username := "user1", created_at := 0, updated_at := 0,
                                options := { use_sticky := some false } },
                 message := none })).state.credentials
        = [⟨"other", "po", none, none, none⟩,
           ⟨"user1", "p1", some false, some false, none⟩]
      ∧ (Aluvia.update
          { credentials := [⟨"other", "po", none, none, none⟩,
                            ⟨"user1", "p1", some false, some false, none⟩] }
          "user1-session-abc" { stickyEnabled := some true }
          (.ok { success := true,
                 data := some { username := "user1", created_at := 0, updated_at := 0,
                                options := { use_sticky := some false } },
                 message := none })).result = .ok true) :=
  ⟨by decide, by decide,
   update_cache_uses_requested_flags [⟨"other", "po", none, none, none⟩]
     ⟨"user1", "p1", some false, some false, none⟩ [] "user1-session-abc" true
     { success := true,
       data := some { username := "user1", created_at := 0, updated_at := 0,
                      options := { use_sticky := some false } },
       message := none }
     (by decide) (by decide) rfl⟩

/-- Claim C2, counterexample: with a matching credential already in the cache,
`find` still issues the remote GET, so the claimed cache-hit short-circuit
does not exist. -/
theorem find_cache_hit_counterexample :
    (Aluvia.find { credentials := [⟨"user1", "p1", some false, some false, none⟩] }
        "user1" (.ok { success := true, data := ⟨"user1", "p1"⟩ })).calls
      = [TransportCall.get "/credentials/user1"]
    ∧ [TransportCall.get "/credentials/user1"] ≠ ([] : List TransportCall) :=
  ⟨by decide, by decide⟩

/-- Claim C2, amended: `find` always issues exactly one remote GET for the
canonicalized username, whatever the cache contains — the local cache is never
consulted to avoid the remote call. -/
theorem find_always_calls_transport (st : AluviaState) (u : String)
    (r : RemoteOutcome FindResponse) :
    (Aluvia.find st u r).calls
      = [TransportCall.get ("/credentials/" ++ stripUsernameSuffixes u)] := by
  cases r with
  | ok response => cases hs : response.success <;> simp [Aluvia.find, hs]
  | err e => cases h4 : e.is404 <;> simp [Aluvia.find, h4]

/-- Claim C3, counterexample: a successful `find` returns the credential but
adds nothing to the cache — a subsequent cache lookup by the same canonical
username finds no record. -/
theorem find_success_not_cached_counterexample :
    (Aluvia.find { credentials := [] } "user1"
        (.ok { success := true, data := ⟨"user1", "p1"⟩ })).result
      = .ok (some ⟨"user1", "p1", some false, some false, none⟩)
    ∧ (Aluvia.find { credentials := [] } "user1"
        (.ok { success := true, data := ⟨"user1", "p1"⟩ })).state.credentials = []
    ∧ ((Aluvia.find { credentials := [] } "user1"
        (.ok { success := true, data := ⟨"user1", "p1"⟩ })).state.credentials.any
          (fun cred => stripUsernameSuffixes cred.username == "user1")) = false :=
  ⟨rfl, rfl, rfl⟩

/-- Claim C3, amended: `find` never mutates the local cache (not even on
success), and every thrown remote failure other than the 404 `ApiError` is
propagated to the caller unchanged. -/
theorem find_leaves_cache_and_propagates (st : AluviaState) (u : String)
    (r : RemoteOutcome FindResponse) :
    (Aluvia.find st u r).state = st
    ∧ (∀ e : SdkError, r = .err e → e.is404 = false →
        (Aluvia.find st u r).result = .error e) := by
  constructor
  · cases r with
    | ok response => cases hs : response.success <;> simp [Aluvia.find, hs]
    | err e => cases h4 : e.is404 <;> simp [Aluvia.find, h4]
  · intro e hr h4
    subst hr
    simp [Aluvia.find, h4]

/-- Witness for the amended C3 at a concrete cache and a thrown network
error. -/
theorem find_leaves_cache_and_propagates_witness :
    (Aluvia.find { credentials := [⟨"u1", "p", none, none, none⟩] } "u1"
        (.err (.networkError "boom"))).state
      = { credentials := [⟨"u1", "p", none, none, none⟩] }
    ∧ (Aluvia.find { credentials := [⟨"u1", "p", none, none, none⟩] } "u1"
        (.err (.networkError "boom"))).result = .error (.networkError "boom") :=
  ⟨(find_leaves_cache_and_propagates _ _ _).1,
   (find_leaves_cache_and_propagates _ _ _).2 _ rfl (by decide)⟩

/-- Claim C4, counterexample: `first` caches a record whose stored username is
the decorated username echoed by the remote system, session suffix included —
the stored username is not canonicalized. -/
theorem stored_username_canonical_counterexample :
    (Aluvia.first { credentials := [] }
        (.ok { success := true,
               data := [{ username := "user1-session-abc", password := "p",
                          created_at := 5, options_use_sticky := none }] })).state.credentials
      = [⟨"user1-session-abc", "p", some false, none, none⟩]
    ∧ hasSessionMatch ("user1-session-abc".data) = true :=
  ⟨rfl, by decide⟩

/-- Claim C4, amended: ingest stores the remote-returned username verbatim:
a successful `find` returns a record whose username equals the response
username exactly, and a successful `first` caches a single record whose
username equals the latest raw credential username exactly — no stripping is
applied on ingest. -/
theorem stored_username_verbatim (st : AluviaState) (u : String)
    (resp : FindResponse) (x : RawCredential) (xs : List RawCredential)
    (hfind : resp.success = true) :
    (∃ cred : ProxyCredential,
        (Aluvia.find st u (.ok resp)).result = .ok (some cred)
        ∧ cred.username = resp.data.username)
    ∧ (∃ cred : ProxyCredential,
        (Aluvia.first st (.ok { success := true, data := x :: xs })).result
          = .ok (some cred)
        ∧ cred.username = (latestOf x xs).username
        ∧ (Aluvia.first st (.ok { success := true, data := x :: xs })).state.credentials
          = [cred]) := by
  constructor
  · exact ⟨{ username := resp.data.username, password := resp.data.password,
             stickyEnabled := some false, smartRoutingEnabled := some false,
             session_salt := none },
           by simp [Aluvia.find, hfind], rfl⟩
  · exact ⟨{ username := (latestOf x xs).username,
             password := (latestOf x xs).password,
             stickyEnabled := some (stickyFromOptions (latestOf x xs).options_use_sticky),
             smartRoutingEnabled := none, session_salt := none },
           by simp [Aluvia.first], rfl, by simp [Aluvia.first]⟩

/-- Witness for the amended C4: a decorated remote username is returned and
cached verbatim. -/
theorem stored_username_verbatim_witness :
    ((true : Bool) = true)
    ∧ ((∃ cred : ProxyCredential,
        (Aluvia.find { credentials := [] } "user1"
            (.ok { success := true, data := ⟨"user1-session-abc", "p"⟩ })).result
          = .ok (some cred)
        ∧ cred.username = ("user1-session-abc" : String))
      ∧ (∃ cred : ProxyCredential,
          (Aluvia.first { credentials := [] }
              (.ok { success := true,
                     data := [⟨"user1-routing-smart", "p", 5, none⟩] })).result
            = .ok (some cred)
          ∧ cred.username
            = (latestOf ⟨"user1-routing-smart", "p", 5, none⟩ []).username
          ∧ (Aluvia.first { credentials := [] }
              (.ok { success := true,
                     data := [⟨"user1-routing-smart", "p", 5, none⟩] })).state.credentials
            = [cred])) :=
  ⟨rfl, stored_username_verbatim { credentials := [] } "user1"
      ⟨true, ⟨"user1-session-abc", "p"⟩⟩ ⟨"user1-routing-smart", "p", 5, none⟩ [] rfl⟩

/-- Claim C7, confirmed: for a valid username, a successful remote delete
removes exactly the cache entries whose canonical username matches the
canonical input; a non-success response raises `ApiError` and leaves the
cache untouched, and a thrown transport error is re-raised with the cache
untouched as well. -/
theorem delete_cache_semantics (st : AluviaState) (u : String)
    (resp : DeleteResponse) (e : SdkError)
    (hne : (jsTrim u).data.isEmpty = false)
    (hlen : ¬ (jsTrim u).length > 100) :
    (resp.success = true →
      (∀ cred : ProxyCredential,
        cred ∈ (Aluvia.delete st u (.ok resp)).state.credentials ↔
          (cred ∈ st.credentials ∧
            stripUsernameSuffixes cred.username ≠ stripUsernameSuffixes (jsTrim u)))
      ∧ (Aluvia.delete st u (.ok resp)).result = .ok true)
    ∧ (resp.success = false →
        (Aluvia.delete st u (.ok resp)).state = st
        ∧ (Aluvia.delete st u (.ok resp)).result
            = .error (.apiError (jsOr resp.message "Failed to delete proxy") none))
    ∧ ((Aluvia.delete st u (.err e)).state = st
        ∧ (Aluvia.delete st u (.err e)).result = .error e) := by
  refine ⟨?_, ?_, ?_⟩
  · intro hsucc
    constructor
    · intro cred
      simp [Aluvia.delete, hne, hlen, hsucc, List.mem_filter, bne_iff_ne]
    · simp [Aluvia.delete, hne, hlen, hsucc]
  · intro hfail
    constructor <;> simp [Aluvia.delete, hne, hlen, hfail]
  · constructor <;> simp [Aluvia.delete, hne, hlen]

/-- Witness for C7: a suffixed cache entry with the same canonical username is
removed on success, and a failing remote delete leaves the cache intact. -/
theorem delete_cache_semantics_witness :
    (jsTrim "user1").data.isEmpty = false
    ∧ ¬ (jsTrim "user1").length > 100
    ∧ (((⟨"user1-session-abc", "p", none, none, none⟩ : ProxyCredential) ∈
          (Aluvia.delete
            { credentials := [⟨"user1-session-abc", "p", none, none, none⟩] }
            "user1" (.ok { success := true, message := none })).state.credentials ↔
        ((⟨"user1-session-abc", "p", none, none, none⟩ : ProxyCredential) ∈
            ({ credentials := [⟨"user1-session-abc", "p", none, none, none⟩] }
              : AluviaState).credentials
          ∧ stripUsernameSuffixes
              (⟨"user1-session-abc", "p", none, none, none⟩ : ProxyCredential).username
            ≠ stripUsernameSuffixes (jsTrim "user1"))))
    ∧ (Aluvia.delete { credentials := [⟨"user1", "p", none, none, none⟩] } "user1"
        (.ok { success := false, message := some "Not found" })).state
      = { credentials := [⟨"user1", "p", none, none, none⟩] }
    ∧ (Aluvia.delete { credentials := [⟨"user1", "p", none, none, none⟩] } "user1"
        (.err (.networkError "boom"))).state
      = { credentials := [⟨"user1", "p", none, none, none⟩] } :=
  ⟨by decide, by decide,
   ((delete_cache_semantics
      { credentials := [⟨"user1-session-abc", "p", none, none, none⟩] } "user1"
      { success := true, message := none } (.networkError "boom")
      (by decide) (by decide)).1 rfl).1 _,
   ((delete_cache_semantics { credentials := [⟨"user1", "p", none, none, none⟩] }
      "user1" { success := false, message := some "Not found" } (.networkError "boom")
      (by decide) (by decide)).2.1 rfl).1,
   ((delete_cache_semantics { credentials := [⟨"user1", "p", none, none, none⟩] }
      "user1" { success := true, message := none } (.networkError "boom")
      (by decide) (by decide)).2.2).1⟩

/-- Claim C8, confirmed: a thrown `ApiError` with status 404 makes `find`
return the absent result instead of raising, and every other thrown failure
is re-raised to the caller. -/
theorem find_404_absent (st : AluviaState) (u : String) (e : SdkError) :
    (e.is404 = true → (Aluvia.find st u (.err e)).result = .ok none)
    ∧ (e.is404 = false → (Aluvia.find st u (.err e)).result = .error e) := by
  constructor <;> intro h <;> simp [Aluvia.find, h]

/-- Witness for C8 at a thrown 404 `ApiError` and a thrown network error. -/
theorem find_404_absent_witness :
    SdkError.is404 (.apiError "Resource not found" (some 404)) = true
    ∧ (Aluvia.find { credentials := [] } "user1"
        (.err (.apiError "Resource not found" (some 404)))).result = .ok none
    ∧ SdkError.is404 (.networkError "boom") = false
    ∧ (Aluvia.find { credentials := [] } "user1"
        (.err (.networkError "boom"))).result = .error (.networkError "boom") :=
  ⟨by decide, (find_404_absent _ _ _).1 (by decide), by decide,
   (find_404_absent _ _ _).2 (by decide)⟩

/-- Claim C9, confirmed: `first` never returns the absent result, and a
successful remote call with an empty credential list makes it raise
`ApiError "Failed to load credentials"`. -/
theorem first_never_absent (st : AluviaState) (r : RemoteOutcome FirstResponse) :
    ((Aluvia.first st r).result ≠ .ok none)
    ∧ (∀ resp : FirstResponse, r = .ok resp → resp.success = true → resp.data = [] →
        (Aluvia.first st r).result
          = .error (.apiError "Failed to load credentials" none)) := by
  constructor
  · cases r with
    | ok response =>
      cases hd : response.data with
      | nil => simp [Aluvia.first, hd]
      | cons a as => cases hs : response.success <;> simp [Aluvia.first, hd, hs]
    | err e => simp [Aluvia.first]
  · intro resp hr hs hd
    subst hr
    simp [Aluvia.first, hd]

/-- Witness for C9 at a successful empty-list response. -/
theorem first_never_absent_witness :
    ((Aluvia.first { credentials := [] }
        (.ok { success := true, data := [] })).result ≠ .ok none)
    ∧ (Aluvia.first { credentials := [] }
        (.ok { success := true, data := [] })).result
      = .error (.apiError "Failed to load credentials" none) :=
  ⟨(first_never_absent _ _).1, (first_never_absent _ _).2 _ rfl rfl rfl⟩

/-- Claim C10, confirmed: a sync triggered with the options a `Proxy` handle
passes sends a PATCH whose body holds only the `use_sticky` option, equal to
the sticky flag of the handle; the smart-routing flag never reaches the wire,
so toggling smart routing leaves the request body unchanged. -/
theorem toggle_sync_body_only_sticky (st : AluviaState) (u : String)
    (c : ProxyCredential) (salt : String) (v : Option Bool)
    (r : RemoteOutcome UpdateResponse) :
    (Aluvia.update st u (Proxy.syncOptions c) r).calls
      = [TransportCall.patch ("/credentials/" ++ stripUsernameSuffixes u)
          { use_sticky := c.stickyEnabled }]
    ∧ Proxy.syncOptions (Proxy.enableSmartRouting c) = Proxy.syncOptions c
    ∧ Proxy.syncOptions (Proxy.disableSmartRouting c) = Proxy.syncOptions c
    ∧ Proxy.syncOptions { c with smartRoutingEnabled := v } = Proxy.syncOptions c
    ∧ Proxy.syncOptions (Proxy.enableSticky c salt) = { stickyEnabled := some true }
    ∧ Proxy.syncOptions (Proxy.disableSticky c) = { stickyEnabled := some false } := by
  refine ⟨?_, rfl, rfl, rfl, rfl, rfl⟩
  cases r with
  | ok response =>
    cases hs : response.success <;> simp [Aluvia.update, Proxy.syncOptions, hs]
  | err e => simp [Aluvia.update, Proxy.syncOptions]

end AluviaSdk
